import Mathlib

/-!
Shallow embedding of the payment-reconciliation subsystem of the
Sabino campus-management backend (routes/paymentRoutes.js, two variants:
`PaymentRoute.js` and the revised second variant), together with the
Mongoose `Payment` and `Student` models it mutates.

Conventions of the embedding:
* The Mongo document store is a pair of lists (`payments`, `students`);
  `findOneAndUpdate` / `findByIdAndUpdate` update the first matching
  document, mirroring Mongo's single-document update semantics.
* `Date.now()` is passed in as a `now : Nat` parameter.
* JavaScript truthiness of the optional request / metadata fields is
  modelled by `jsFalsyStr` / `jsFalsyInt` (absent, empty string and 0 are
  falsy), and `a || b` defaulting by `jsOrStr`.
* Paths on which the JavaScript throws (a `ReferenceError` on the
  undefined identifier `academicYear` in the first variant's webhook
  reconstruction branch, and a `TypeError` reading `._id` of `null` in
  the first variant's verify handler) land in the surrounding
  `try/catch`, which responds 500; they are embedded as the
  corresponding 500 response with the state mutations that had already
  happened at the point of the throw.
* The webhook body is parsed by `express.json()` before the handler
  runs; the handler then hashes `JSON.stringify(req.body)`.  `jsonParse`
  and `jsonStringify` model `JSON.parse` / `JSON.stringify` (integer
  numerals; enough of the grammar for the bodies in question).
-/

/-- JSON values, as produced by `JSON.parse` of a webhook body. -/
inductive Json where
  | str : String → Json
  | num : Int → Json
  | bool : Bool → Json
  | null : Json
  | arr : List Json → Json
  | obj : List (String × Json) → Json

/-- Skip JSON whitespace, as `JSON.parse` does before every token. -/
def skipWs : List Char → List Char
  | c :: cs =>
      if c = ' ' ∨ c = '\t' ∨ c = '\n' ∨ c = '\r' then skipWs cs else c :: cs
  | [] => []

/-- One escaped character inside a JSON string literal. -/
def unescapeChar (c : Char) : Char :=
  if c = 'n' then '\n' else if c = 't' then '\t' else c

/-- Parse the body of a JSON string literal (after the opening quote),
returning the decoded characters and the rest of the input. -/
def parseStringBody : List Char → Option (List Char × List Char)
  | [] => none
  | '\\' :: c :: rest =>
      (parseStringBody rest).map fun r => (unescapeChar c :: r.1, r.2)
  | '"' :: rest => some ([], rest)
  | c :: rest =>
      (parseStringBody rest).map fun r => (c :: r.1, r.2)

/-- Accumulate decimal digits into a natural number. -/
def parseNatAux : List Char → Nat → Nat × List Char
  | c :: cs, acc =>
      if c.isDigit then parseNatAux cs (acc * 10 + (c.toNat - 48))
      else (acc, c :: cs)
  | [], acc => (acc, [])

/-- Internal mode of the recursive-descent JSON reader: a value, the
members of an object, or the elements of an array. -/
inductive PMode where
  | value : PMode
  | members : List (String × Json) → PMode
  | elements : List Json → PMode

/-- Fuel-indexed recursive-descent JSON reader (model of `JSON.parse`,
integer numerals only).  Returns the parsed value and the remaining
input. -/
def parseF : Nat → PMode → List Char → Option (Json × List Char)
  | 0, _, _ => none
  | f + 1, PMode.value, cs =>
      match skipWs cs with
      | [] => none
      | '{' :: rest =>
          (match skipWs rest with
           | '}' :: r2 => some (Json.obj [], r2)
           | r2 => parseF f (PMode.members []) r2)
      | '[' :: rest =>
          (match skipWs rest with
           | ']' :: r2 => some (Json.arr [], r2)
           | r2 => parseF f (PMode.elements []) r2)
      | '"' :: rest =>
          (parseStringBody rest).map fun r => (Json.str (String.mk r.1), r.2)
      | 't' :: 'r' :: 'u' :: 'e' :: r => some (Json.bool true, r)
      | 'f' :: 'a' :: 'l' :: 's' :: 'e' :: r => some (Json.bool false, r)
      | 'n' :: 'u' :: 'l' :: 'l' :: r => some (Json.null, r)
      | '-' :: c :: rest =>
          if c.isDigit then
            let r := parseNatAux (c :: rest) 0
            some (Json.num (-(r.1 : Int)), r.2)
          else none
      | c :: rest =>
          if c.isDigit then
            let r := parseNatAux (c :: rest) 0
            some (Json.num (r.1 : Int), r.2)
          else none
  | f + 1, PMode.members acc, cs =>
      match skipWs cs with
      | '"' :: rest =>
          (match parseStringBody rest with
           | some kr =>
               (match skipWs kr.2 with
                | ':' :: r2 =>
                    (match parseF f PMode.value r2 with
                     | some vr =>
                         (match skipWs vr.2 with
                          | ',' :: r4 =>
                              parseF f
                                (PMode.members (acc ++ [(String.mk kr.1, vr.1)])) r4
                          | '}' :: r4 =>
                              some (Json.obj (acc ++ [(String.mk kr.1, vr.1)]), r4)
                          | _ => none)
                     | none => none)
                | _ => none)
           | none => none)
      | _ => none
  | f + 1, PMode.elements acc, cs =>
      match parseF f PMode.value cs with
      | some vr =>
          (match skipWs vr.2 with
           | ',' :: r2 => parseF f (PMode.elements (acc ++ [vr.1])) r2
           | ']' :: r2 => some (Json.arr (acc ++ [vr.1]), r2)
           | _ => none)
      | none => none

/-- Model of `JSON.parse` on a raw request body: parse one value and
require only whitespace to remain. -/
def jsonParse (s : String) : Option Json :=
  match parseF (2 * s.length + 2) PMode.value s.data with
  | some vr => if skipWs vr.2 = [] then some vr.1 else none
  | none => none

/-- Escape one character for a JSON string literal. -/
def escapeChar (c : Char) : List Char :=
  if c = '"' then ['\\', '"']
  else if c = '\\' then ['\\', '\\']
  else if c = '\n' then ['\\', 'n']
  else if c = '\t' then ['\\', 't']
  else [c]

/-- Escape a string for a JSON string literal. -/
def escapeString (s : String) : String :=
  String.mk (s.data.flatMap escapeChar)

/-- Internal input of the fuel-indexed serializer. -/
inductive SMode where
  | v : Json → SMode
  | l : List Json → SMode
  | m : List (String × Json) → SMode

/-- Fuel-indexed serializer behind `jsonStringify`. -/
def strF : Nat → SMode → String
  | 0, _ => ""
  | f + 1, SMode.v j =>
      match j with
      | Json.str s => "\"" ++ escapeString s ++ "\""
      | Json.num n => toString n
      | Json.bool b => cond b "true" "false"
      | Json.null => "null"
      | Json.arr xs => "[" ++ strF f (SMode.l xs) ++ "]"
      | Json.obj kvs => "\x7b" ++ strF f (SMode.m kvs) ++ "\x7d"
  | _ + 1, SMode.l [] => ""
  | f + 1, SMode.l [x] => strF f (SMode.v x)
  | f + 1, SMode.l (x :: y :: xs) =>
      strF f (SMode.v x) ++ "," ++ strF f (SMode.l (y :: xs))
  | _ + 1, SMode.m [] => ""
  | f + 1, SMode.m [kv] =>
      "\"" ++ escapeString kv.1 ++ "\":" ++ strF f (SMode.v kv.2)
  | f + 1, SMode.m (kv :: kw :: kvs) =>
      "\"" ++ escapeString kv.1 ++ "\":" ++ strF f (SMode.v kv.2)
        ++ "," ++ strF f (SMode.m (kw :: kvs))

/-- Model of `JSON.stringify` on a parsed body.  The fuel only bounds
the recursion depth of the serializer; any value parsed from a raw body
of length `n` is fully serialized with fuel `4 * n + 4`, which is what
`webhookHashInput` and `webhookSigOk` supply. -/
def jsonStringify (fuel : Nat) (j : Json) : String :=
  strF fuel (SMode.v j)

/-- The byte string the webhook handler actually feeds to the HMAC:
`JSON.stringify(req.body)` where `req.body = JSON.parse(rawBody)`
(both route variants, line `crypto.createHmac('sha512', secret)
.update(JSON.stringify(req.body))`).  `none` when the raw body is not
valid JSON (in which case `express.json()` rejects the request before
the handler runs). -/
def webhookHashInput (rawBody : String) : Option String :=
  (jsonParse rawBody).map (jsonStringify (4 * rawBody.length + 4))

/-- The webhook signature check, parametric in the HMAC primitive
(`hmac secret message`): the handler compares
`hmac(secret, JSON.stringify(req.body))` with the
`x-paystack-signature` header using `==`. -/
def webhookSigOk (hmac : String → String → String)
    (secret rawBody sig : String) : Bool :=
  match webhookHashInput rawBody with
  | some msg => hmac secret msg == sig
  | none => false

/-- JavaScript truthiness test for an optional string field: `!x` is
true when the field is absent (`undefined`) or the empty string. -/
def jsFalsyStr : Option String → Bool
  | none => true
  | some s => s = ""

/-- JavaScript truthiness test for an optional numeric field: `!x` is
true when the field is absent or `0`. -/
def jsFalsyInt : Option Int → Bool
  | none => true
  | some n => n = 0

/-- JavaScript `a || b` defaulting on an optional string field. -/
def jsOrStr (a : Option String) (b : String) : String :=
  if jsFalsyStr a then b else a.getD ""

/-- The `metadata` object attached to a Paystack charge (set by the
initiate flow; every field may be absent on a foreign event). -/
structure Metadata where
  student_id : Option String
  semester : Option String
  academic_year : Option String
  description : Option String
deriving DecidableEq, Repr

/-- The `data` object of a Paystack webhook event. -/
structure ChargeData where
  reference : String
  amount : Int
  currency : String
  paid_at : Option String
  metadata : Metadata
deriving DecidableEq, Repr

/-- A parsed Paystack webhook event (`req.body`). -/
structure WebhookEvent where
  event : String
  data : ChargeData
deriving DecidableEq, Repr

/-- The `data` object of a Paystack `transaction/verify` response. -/
structure VerifyData where
  status : String
  paid_at : Option String
  gateway_response : Option String
  metadata : Metadata
deriving DecidableEq, Repr

/-- A `Payment` document (Models/Payment.js) as the payment routes
write it: `_id` is modelled as a `Nat` drawn from the store's `nextId`
counter. -/
structure Payment where
  _id : Nat
  studentId : Option String
  paystackReference : String
  amount : Int
  currency : String
  status : String
  semester : Option String
  academicYear : Option String
  description : Option String
  paidAt : Option String
  createdAt : Nat
  updatedAt : Nat
deriving DecidableEq, Repr

/-- The payment-projection fields of a `Student` document
(Models/Students.js); the unrelated profile fields are not touched by
the payment routes and are elided.  `paymentHistory` stores ObjectId
references, with `none` for a JavaScript `null` entry. -/
structure Student where
  id : String
  currentSemesterPaymentStatus : String
  lastPaidSemester : Option String
  lastPaidAcademicYear : Option String
  paymentHistory : List (Option Nat)
deriving DecidableEq, Repr

/-- The document store visible to the payment routes. -/
structure DB where
  payments : List Payment
  students : List Student
  nextId : Nat
deriving DecidableEq, Repr

/-- `Payment.findOne({paystackReference: ref})`: first matching
document. -/
def findPayment (ps : List Payment) (ref : String) : Option Payment :=
  match ps with
  | [] => none
  | p :: rest => if p.paystackReference = ref then some p else findPayment rest ref

/-- `Payment.findOneAndUpdate({paystackReference: ref}, u, {new: true})`:
update the first matching document with `f` and return it (post-update)
together with the new collection. -/
def findOneAndUpdatePayment (ps : List Payment) (ref : String)
    (f : Payment → Payment) : Option Payment × List Payment :=
  match ps with
  | [] => (none, [])
  | p :: rest =>
      if p.paystackReference = ref then (some (f p), f p :: rest)
      else
        let r := findOneAndUpdatePayment rest ref f
        (r.1, p :: r.2)

/-- `Student.findById(sid)`: first document with that id. -/
def findStudent (ss : List Student) (sid : String) : Option Student :=
  match ss with
  | [] => none
  | s :: rest => if s.id = sid then some s else findStudent rest sid

/-- `Student.findByIdAndUpdate(sid, u)`: update the first document with
that id; `sid = none` (a JavaScript `undefined` id) matches nothing. -/
def findByIdAndUpdateStudent (ss : List Student) (sid : Option String)
    (f : Student → Student) : List Student :=
  match ss with
  | [] => []
  | s :: rest =>
      if some s.id = sid then f s :: rest
      else s :: findByIdAndUpdateStudent rest sid f

/-- Mongo `$addToSet`: append the value unless already present. -/
def addToSet (l : List (Option Nat)) (x : Option Nat) : List (Option Nat) :=
  if l.contains x then l else l ++ [x]

/-- The student-projection update both routes issue on a confirmed
payment: `{currentSemesterPaymentStatus: 'paid', lastPaidSemester,
lastPaidAcademicYear, $addToSet: {paymentHistory: txId}}`, keyed on the
event metadata's `student_id`. -/
def markStudentPaid (m : Metadata) (txId : Option Nat)
    (ss : List Student) : List Student :=
  findByIdAndUpdateStudent ss m.student_id fun s =>
    { s with
      currentSemesterPaymentStatus := "paid"
      lastPaidSemester := m.semester
      lastPaidAcademicYear := m.academic_year
      paymentHistory := addToSet s.paymentHistory txId }

/-- Responses of the webhook route. -/
inductive WebhookResp where
  /-- 200 `{received: true}` -/
  | ok : WebhookResp
  /-- 400 `'Invalid signature'` -/
  | invalidSignature : WebhookResp
  /-- 400 `{received: true, message: 'Missing metadata'}` (second
  variant only) -/
  | missingMetadata : WebhookResp
  /-- 500 `{received: true, message: 'Database update failed'}` -/
  | dbError : WebhookResp
deriving DecidableEq, Repr

/-- HTTP status code of a webhook response (`res.status(...)`). -/
def WebhookResp.statusCode : WebhookResp → Nat
  | .ok => 200
  | .invalidSignature => 400
  | .missingMetadata => 400
  | .dbError => 500

/-- Whether the webhook response body contains `received: true`. -/
def WebhookResp.receivedTrue : WebhookResp → Bool
  | .ok => true
  | .invalidSignature => false
  | .missingMetadata => true
  | .dbError => true

/-- First variant (`PaymentRoute.js`), `POST /webhook`, body of the
signature-valid branch.  `charge.success`: `findOneAndUpdate` the
payment to `success` keyed only on the reference; if found, apply the
student projection update; otherwise reconstruct the payment from the
event metadata — evaluating the defaulted description there references
the undefined identifier `academicYear`, so when the metadata's
`description` is falsy the branch throws (`ReferenceError`) and the
`catch` responds 500 with no record saved.  `charge.failed`:
`findOneAndUpdate` to `failed`.  Any other event type falls through.
Always responds 200 `{received: true}` at the end. -/
def webhookDispatch (e : WebhookEvent) (now : Nat) (db : DB) :
    DB × WebhookResp :=
  if e.event = "charge.success" then
    let d := e.data
    let m := d.metadata
    let r := findOneAndUpdatePayment db.payments d.reference fun p =>
      { p with status := "success", paidAt := d.paid_at, updatedAt := now }
    match r.1 with
    | some up =>
        ({ db with
            payments := r.2
            students := markStudentPaid m (some up._id) db.students }, .ok)
    | none =>
        if jsFalsyStr m.description then
          -- `description || `Fee payment for ${semester} ${academicYear}``:
          -- `academicYear` is not in scope in this handler (the destructured
          -- name is `academic_year`), so the template throws before the
          -- record is constructed; caught → 500.
          (db, .dbError)
        else
          let newP : Payment :=
            { _id := db.nextId
              studentId := m.student_id
              paystackReference := d.reference
              amount := d.amount
              currency := d.currency
              status := "success"
              semester := m.semester
              academicYear := m.academic_year
              description := some (m.description.getD "")
              paidAt := d.paid_at
              createdAt := now
              updatedAt := now }
          ({ db with
              payments := db.payments ++ [newP]
              students := markStudentPaid m (some newP._id) db.students
              nextId := db.nextId + 1 }, .ok)
  else if e.event = "charge.failed" then
    let r := findOneAndUpdatePayment db.payments e.data.reference fun p =>
      { p with status := "failed", updatedAt := now }
    ({ db with payments := r.2 }, .ok)
  else (db, .ok)

/-- Second variant (revised `paymentRoutes.js`), `POST /webhook`, body
of the signature-valid branch.  Differences from the first variant: a
guard rejects a `charge.success` event whose metadata lacks
`student_id`, `semester` or `academic_year` with 400
`{received: true, message: 'Missing metadata'}`, and the reconstruction
branch's defaulted description correctly uses `academic_year`. -/
def webhookDispatch2 (e : WebhookEvent) (now : Nat) (db : DB) :
    DB × WebhookResp :=
  if e.event = "charge.success" then
    let d := e.data
    let m := d.metadata
    if jsFalsyStr m.student_id ∨ jsFalsyStr m.semester ∨
        jsFalsyStr m.academic_year then
      (db, .missingMetadata)
    else
      let r := findOneAndUpdatePayment db.payments d.reference fun p =>
        { p with status := "success", paidAt := d.paid_at, updatedAt := now }
      match r.1 with
      | some up =>
          ({ db with
              payments := r.2
              students := markStudentPaid m (some up._id) db.students }, .ok)
      | none =>
          let newP : Payment :=
            { _id := db.nextId
              studentId := m.student_id
              paystackReference := d.reference
              amount := d.amount
              currency := d.currency
              status := "success"
              semester := m.semester
              academicYear := m.academic_year
              description := some (jsOrStr m.description
                ("Fee payment for " ++ m.semester.getD "" ++ " "
                  ++ m.academic_year.getD ""))
              paidAt := d.paid_at
              createdAt := now
              updatedAt := now }
          ({ db with
              payments := db.payments ++ [newP]
              students := markStudentPaid m (some newP._id) db.students
              nextId := db.nextId + 1 }, .ok)
  else if e.event = "charge.failed" then
    let r := findOneAndUpdatePayment db.payments e.data.reference fun p =>
      { p with status := "failed", updatedAt := now }
    ({ db with payments := r.2 }, .ok)
  else (db, .ok)

/-- First variant, `POST /webhook`, full handler: dispatch the event
iff the computed HMAC hash equals the `x-paystack-signature` header
(`sigOk`), else respond 400 `'Invalid signature'` with no state
change. -/
def webhookHandler (sigOk : Bool) (e : WebhookEvent) (now : Nat)
    (db : DB) : DB × WebhookResp :=
  if sigOk then webhookDispatch e now db else (db, .invalidSignature)

/-- Second variant, `POST /webhook`, full handler. -/
def webhookHandler2 (sigOk : Bool) (e : WebhookEvent) (now : Nat)
    (db : DB) : DB × WebhookResp :=
  if sigOk then webhookDispatch2 e now db else (db, .invalidSignature)

/-- Responses of `GET /verify-payment/:reference`. -/
inductive VerifyResp where
  /-- 200 `{message: 'Payment verified successfully.', payment}` -/
  | verified : Option Payment → VerifyResp
  /-- 400 `{message: 'Payment verification failed.', details}` -/
  | failed : String → VerifyResp
  /-- 500 `{message: 'Failed to verify payment.', ...}` -/
  | serverError : VerifyResp
deriving DecidableEq, Repr

/-- HTTP status code of a verify response. -/
def VerifyResp.statusCode : VerifyResp → Nat
  | .verified _ => 200
  | .failed _ => 400
  | .serverError => 500

/-- First variant, `GET /verify-payment/:reference`.  `pd` is the
`data` object of the provider's verify response (`none` when absent).
On `status === 'success'`: `findOneAndUpdate` the payment to `success`
with the provider's `paid_at`; if no record matched, the handler reads
`._id` of `null` while building the student update (`TypeError`),
caught → 500 with the student untouched.  Otherwise: 400 with
`gateway_response || 'Unknown status'` and no state change (reading
`.gateway_response` of an absent `data` object throws → 500). -/
def verifyPayment (reference : String) (pd : Option VerifyData)
    (now : Nat) (db : DB) : DB × VerifyResp :=
  match pd with
  | some d =>
      if d.status = "success" then
        let r := findOneAndUpdatePayment db.payments reference fun p =>
          { p with status := "success", paidAt := d.paid_at, updatedAt := now }
        match r.1 with
        | some up =>
            ({ db with
                payments := r.2
                students := markStudentPaid d.metadata (some up._id) db.students },
             .verified (some up))
        | none => (db, .serverError)
      else (db, .failed (jsOrStr d.gateway_response "Unknown status"))
  | none => (db, .serverError)

/-- Second variant, `GET /verify-payment/:reference`.  Difference: a
missing payment record is tolerated — the student projection update
runs regardless, adding `updatedTransaction ? updatedTransaction._id :
null` to `paymentHistory` (so `null` when no record matched). -/
def verifyPayment2 (reference : String) (pd : Option VerifyData)
    (now : Nat) (db : DB) : DB × VerifyResp :=
  match pd with
  | some d =>
      if d.status = "success" then
        let r := findOneAndUpdatePayment db.payments reference fun p =>
          { p with status := "success", paidAt := d.paid_at, updatedAt := now }
        let txId : Option Nat :=
          match r.1 with
          | some up => some up._id
          | none => none
        ({ db with
            payments := r.2
            students := markStudentPaid d.metadata txId db.students },
         .verified r.1)
      else (db, .failed (jsOrStr d.gateway_response "Unknown status"))
  | none => (db, .serverError)

/-- The request body of `POST /initiate-payment` (every field may be
absent).  `amount` is in Naira; the handler assumes integral amounts,
for which `Math.round(amount * 100) = amount * 100`. -/
structure InitiateBody where
  amount : Option Int
  studentId : Option String
  semester : Option String
  academicYear : Option String
  description : Option String
  email : Option String
deriving DecidableEq, Repr

/-- Outcome of the provider's `transaction/initialize` call as the
handler observes it. -/
inductive GatewayInit where
  /-- `paystackResponse.data.status` truthy, with the returned
  `authorization_url`, `access_code` and `reference`. -/
  | ok : String → String → String → GatewayInit
  /-- Response received but `data.status` falsy. -/
  | declined : GatewayInit
  /-- `axios` threw (network / provider error). -/
  | unavailable : GatewayInit
deriving DecidableEq, Repr

/-- Responses of `POST /initiate-payment` (first variant). -/
inductive InitResp where
  /-- 200 `{authorization_url, access_code, reference, paymentId}` -/
  | created : String → String → String → Nat → InitResp
  /-- 400 with the given message -/
  | badRequest : String → InitResp
  /-- 404 `'Student not found.'` -/
  | notFound : InitResp
  /-- 500 `'Failed to initiate payment with Paystack.'` -/
  | gatewayFailed : InitResp
  /-- 500 `'Failed to initiate payment.'` (catch branch) -/
  | serverError : InitResp
deriving DecidableEq, Repr

/-- HTTP status code of an initiate response. -/
def InitResp.statusCode : InitResp → Nat
  | .created _ _ _ _ => 200
  | .badRequest _ => 400
  | .notFound => 404
  | .gatewayFailed => 500
  | .serverError => 500

/-- First variant, `POST /initiate-payment`: validate the body
(JavaScript-falsy required fields → 400; non-positive amount → 400),
look up the student (404 when absent), call the provider, and on a
truthy provider status save a `pending` payment and respond 200 with
the provider reference, authorization URL and the internal id. -/
def initiatePayment (b : InitiateBody) (gw : GatewayInit) (now : Nat)
    (db : DB) : DB × InitResp :=
  if jsFalsyInt b.amount ∨ jsFalsyStr b.studentId ∨ jsFalsyStr b.semester ∨
      jsFalsyStr b.academicYear ∨ jsFalsyStr b.email then
    (db, .badRequest
      "Missing required payment details (amount, studentId, semester, academicYear, email).")
  else
    let a := b.amount.getD 0
    if a ≤ 0 then (db, .badRequest "Amount must be positive.")
    else
      match findStudent db.students (b.studentId.getD "") with
      | none => (db, .notFound)
      | some _ =>
          match gw with
          | .unavailable => (db, .serverError)
          | .declined => (db, .gatewayFailed)
          | .ok url code ref =>
              let newP : Payment :=
                { _id := db.nextId
                  studentId := b.studentId
                  paystackReference := ref
                  amount := a * 100
                  currency := "NGN"
                  status := "pending"
                  semester := b.semester
                  academicYear := b.academicYear
                  description := some (jsOrStr b.description
                    ("Fee payment for " ++ b.semester.getD "" ++ " "
                      ++ b.academicYear.getD ""))
                  paidAt := none
                  createdAt := now
                  updatedAt := now }
              ({ db with
                  payments := db.payments ++ [newP]
                  nextId := db.nextId + 1 },
               .created url code ref newP._id)

/-- Fully populated charge metadata used by the concrete scenarios. -/
def mdC : Metadata :=
  { student_id := some "stu1"
    semester := some "Fall"
    academic_year := some "2025/2026"
    description := some "Tuition" }

/-- A `charge.success` webhook event for reference `ref1`. -/
def evSuccessC : WebhookEvent :=
  { event := "charge.success"
    data :=
      { reference := "ref1"
        amount := 500000
        currency := "NGN"
        paid_at := some "2026-01-05T10:00:00Z"
        metadata := mdC } }

/-- A `charge.failed` webhook event for reference `ref1`. -/
def evFailedC : WebhookEvent :=
  { event := "charge.failed"
    data :=
      { reference := "ref1"
        amount := 500000
        currency := "NGN"
        paid_at := none
        metadata := mdC } }

/-- A stored payment for `ref1` already in the `success` terminal
state. -/
def paySuccessC : Payment :=
  { _id := 1
    studentId := some "stu1"
    paystackReference := "ref1"
    amount := 500000
    currency := "NGN"
    status := "success"
    semester := some "Fall"
    academicYear := some "2025/2026"
    description := some "Tuition"
    paidAt := some "2026-01-05T10:00:00Z"
    createdAt := 3
    updatedAt := 11 }

/-- A stored payment for `ref1` still `pending`. -/
def payPendingC : Payment :=
  { paySuccessC with status := "pending", paidAt := none, updatedAt := 3 }

/-- A student who has not paid and has an empty payment history. -/
def studentUnpaidC : Student :=
  { id := "stu1"
    currentSemesterPaymentStatus := "unpaid"
    lastPaidSemester := none
    lastPaidAcademicYear := none
    paymentHistory := [] }

/-- Store holding the pending `ref1` payment and the unpaid student. -/
def dbPendingC : DB :=
  { payments := [payPendingC], students := [studentUnpaidC], nextId := 2 }

/-- One signature-valid delivery of the `evSuccessC` webhook (first
variant), at a fixed clock. -/
def successStep (db : DB) : DB :=
  (webhookDispatch evSuccessC 11 db).1

theorem findOneAndUpdatePayment_fst (ps : List Payment) (ref : String)
    (f : Payment → Payment) :
    (findOneAndUpdatePayment ps ref f).1 = (findPayment ps ref).map f := by
  induction ps with
  | nil => rfl
  | cons p rest ih =>
      by_cases h : p.paystackReference = ref
      · simp [findOneAndUpdatePayment, findPayment, h]
      · simp [findOneAndUpdatePayment, findPayment, h, ih]

theorem findPayment_after_update (ps : List Payment) (ref : String)
    (f : Payment → Payment)
    (hf : ∀ p, (f p).paystackReference = p.paystackReference) :
    findPayment (findOneAndUpdatePayment ps ref f).2 ref
      = (findPayment ps ref).map f := by
  induction ps with
  | nil => rfl
  | cons p rest ih =>
      by_cases h : p.paystackReference = ref
      · simp [findOneAndUpdatePayment, findPayment, h, hf p]
      · simp [findOneAndUpdatePayment, findPayment, h, ih]

theorem findOneAndUpdatePayment_nomatch (ps : List Payment) (ref : String)
    (f : Payment → Payment)
    (h : ∀ p ∈ ps, p.paystackReference ≠ ref) :
    findOneAndUpdatePayment ps ref f = (none, ps) := by
  induction ps with
  | nil => rfl
  | cons p rest ih =>
      have hp : p.paystackReference ≠ ref := h p (List.mem_cons_self p rest)
      have hrest : ∀ q ∈ rest, q.paystackReference ≠ ref :=
        fun q hq => h q (List.mem_cons_of_mem p hq)
      simp [findOneAndUpdatePayment, hp, ih hrest]

theorem findStudent_after_update (ss : List Student) (sid : String)
    (f : Student → Student) (hf : ∀ s, (f s).id = s.id) :
    findStudent (findByIdAndUpdateStudent ss (some sid) f) sid
      = (findStudent ss sid).map f := by
  induction ss with
  | nil => rfl
  | cons s rest ih =>
      by_cases h : s.id = sid
      · simp [findByIdAndUpdateStudent, findStudent, h, hf s]
      · simp [findByIdAndUpdateStudent, findStudent, h, ih]

/-- Claim C1 is false on the code: the webhook's terminal-transition
update is keyed only on the reference, with no guard on the stored
status, so a `charge.failed` delivery for a transaction already in the
`success` terminal state overwrites its status to `failed` — a
subsequent reconciliation trigger does change a terminal record. -/
theorem C1_counterexample :
    paySuccessC.status = "success" ∧
    ((webhookDispatch evFailedC 12
        { payments := [paySuccessC], students := [studentUnpaidC],
          nextId := 2 }).1.payments.map Payment.status) = ["failed"] := by
  decide

/-- Claim C1, amended: the terminal-transition update is unguarded —
dispatching a `charge.failed` webhook rewrites the first stored
transaction with its reference to status `failed` (stamping
`updatedAt`) whatever the stored status was, including the terminal
`success`; it is not a no-op on already-terminal records. -/
theorem C1_amended_unguarded_transition (e : WebhookEvent) (now : Nat)
    (db : DB) (h : e.event = "charge.failed") :
    findPayment ((webhookDispatch e now db).1.payments) e.data.reference
      = (findPayment db.payments e.data.reference).map
          (fun p => { p with status := "failed", updatedAt := now }) := by
  simp only [webhookDispatch, h]
  norm_num
  exact findPayment_after_update db.payments e.data.reference _ fun p => rfl

theorem C1_amended_unguarded_transition_witness :
    evFailedC.event = "charge.failed" ∧
    findPayment ((webhookDispatch evFailedC 12
        { payments := [paySuccessC], students := [studentUnpaidC],
          nextId := 2 }).1.payments) evFailedC.data.reference
      = (findPayment [paySuccessC] evFailedC.data.reference).map
          (fun p => { p with status := "failed", updatedAt := 12 }) :=
  ⟨by decide,
   C1_amended_unguarded_transition evFailedC 12
     { payments := [paySuccessC], students := [studentUnpaidC], nextId := 2 }
     (by decide)⟩

/-- Claim C2 is false on the code: the webhook HMAC is computed over
`JSON.stringify` of the parsed body, not over the raw bytes received.
Below, the second raw body is the first one tampered with (whitespace
inserted after signing): the two raw bodies differ, yet the byte
strings fed to the HMAC coincide — so the tampered body with the
unchanged signature header still verifies — and neither equals the raw
bytes themselves. -/
theorem C2_counterexample :
    ("\x7b\"event\":\"charge.success\",\"data\":\x7b\"reference\":\"ref1\"\x7d\x7d"
        ≠ " \x7b\"event\": \"charge.success\", \"data\": \x7b\"reference\": \"ref1\"\x7d \x7d") ∧
    webhookHashInput
        "\x7b\"event\":\"charge.success\",\"data\":\x7b\"reference\":\"ref1\"\x7d\x7d"
      = webhookHashInput
        " \x7b\"event\": \"charge.success\", \"data\": \x7b\"reference\": \"ref1\"\x7d \x7d" ∧
    webhookHashInput
        " \x7b\"event\": \"charge.success\", \"data\": \x7b\"reference\": \"ref1\"\x7d \x7d"
      ≠ some
        " \x7b\"event\": \"charge.success\", \"data\": \x7b\"reference\": \"ref1\"\x7d \x7d" := by
  decide

/-- Claim C2, amended: the signature check hashes the re-serialized
parsed body, so its outcome is a function of the parsed value — any two
raw bodies with the same `JSON.stringify ∘ JSON.parse` image verify
identically against the same header, for every keyed-hash primitive and
secret; in particular whitespace tampering after signing still passes.
(The header comparison itself is plain `==` string equality.) -/
theorem C2_amended_sig_depends_on_parse (hmac : String → String → String)
    (secret sig r r' : String)
    (h : webhookHashInput r = webhookHashInput r') :
    webhookSigOk hmac secret r sig = webhookSigOk hmac secret r' sig := by
  unfold webhookSigOk
  rw [h]

theorem C2_amended_sig_depends_on_parse_witness :
    (webhookHashInput
        "\x7b\"event\":\"charge.success\",\"data\":\x7b\"reference\":\"ref1\"\x7d\x7d"
      = webhookHashInput
        " \x7b\"event\": \"charge.success\", \"data\": \x7b\"reference\": \"ref1\"\x7d \x7d") ∧
    webhookSigOk (fun s m => s ++ m) "sk_test"
        "\x7b\"event\":\"charge.success\",\"data\":\x7b\"reference\":\"ref1\"\x7d\x7d"
        "header-sig"
      = webhookSigOk (fun s m => s ++ m) "sk_test"
        " \x7b\"event\": \"charge.success\", \"data\": \x7b\"reference\": \"ref1\"\x7d \x7d"
        "header-sig" :=
  ⟨by decide,
   C2_amended_sig_depends_on_parse (fun s m => s ++ m) "sk_test" "header-sig"
     "\x7b\"event\":\"charge.success\",\"data\":\x7b\"reference\":\"ref1\"\x7d\x7d"
     " \x7b\"event\": \"charge.success\", \"data\": \x7b\"reference\": \"ref1\"\x7d \x7d"
     (by decide)⟩

/-- Claim C3 is false on the code: the student-projection update is
applied by every success trigger that finds the transaction, not only
by the trigger that actually changed its state.  Below, the stored
transaction is already in the `success` terminal state and already in
the student's `paymentHistory`, so the duplicate `charge.success`
delivery changes no transaction state — yet it still applies the
projection update, observably flipping `currentSemesterPaymentStatus`
from `unpaid` back to `paid`. -/
theorem C3_counterexample :
    (findPayment [paySuccessC] "ref1").map Payment.status = some "success" ∧
    ((webhookDispatch evSuccessC 12
        { payments := [paySuccessC]
          students := [{ studentUnpaidC with paymentHistory := [some 1] }]
          nextId := 2 }).1.students.map
      Student.currentSemesterPaymentStatus) = ["paid"] := by
  decide

/-- Claim C3, amended: the projection update is applied by every
success trigger (duplicates included), but `$addToSet` gives it set
semantics, so after any positive number of duplicate `charge.success`
deliveries for the same reference the student's `paymentHistory`
contains the transaction id exactly once. -/
theorem C3_amended_history_exactly_once (n : Nat) (h : 1 ≤ n) :
    ((successStep^[n]) dbPendingC).students.map
      (fun s => s.paymentHistory.count (some 1)) = [1] := by
  obtain ⟨k, rfl⟩ : ∃ k, n = k + 1 := ⟨n - 1, by omega⟩
  rw [Function.iterate_succ_apply]
  have hfix : successStep (successStep dbPendingC) = successStep dbPendingC := by
    decide
  rw [Function.iterate_fixed hfix k]
  decide

theorem C3_amended_history_exactly_once_witness :
    1 ≤ 3 ∧
    ((successStep^[3]) dbPendingC).students.map
      (fun s => s.paymentHistory.count (some 1)) = [1] :=
  ⟨by decide, C3_amended_history_exactly_once 3 (by decide)⟩

/-- Claim C4 is false on the code: in the second route variant a
webhook whose signature verifies can still be answered 400 — a
`charge.success` event whose metadata lacks `student_id`, `semester`
and `academic_year` gets 400 `{received: true, message: 'Missing
metadata'}` — so 400 is not reserved for signature failure. -/
theorem C4_counterexample :
    (webhookHandler2 true
        { event := "charge.success"
          data :=
            { reference := "refX", amount := 1000, currency := "NGN",
              paid_at := none,
              metadata :=
                { student_id := none, semester := none,
                  academic_year := none, description := none } } } 4
        { payments := [], students := [], nextId := 1 })
      = ({ payments := [], students := [], nextId := 1 },
         WebhookResp.missingMetadata) ∧
    WebhookResp.statusCode WebhookResp.missingMetadata = 400 ∧
    WebhookResp.receivedTrue WebhookResp.missingMetadata = true := by
  decide

/-- Claim C4, amended (second variant, database failures out of the
model): a request failing the signature check is answered 400 `'Invalid
signature'` with no state change; a request passing it is answered 200
`{received: true}` — including ignored event types — except that a
`charge.success` event with JavaScript-falsy `student_id`, `semester`
or `academic_year` metadata is answered 400 `{received: true, message:
'Missing metadata'}`. -/
theorem C4_amended_ack_policy (e : WebhookEvent) (now : Nat) (db : DB) :
    webhookHandler2 false e now db = (db, WebhookResp.invalidSignature) ∧
    WebhookResp.statusCode WebhookResp.invalidSignature = 400 ∧
    ((webhookHandler2 true e now db).2 = WebhookResp.ok ∨
      ((webhookHandler2 true e now db).2 = WebhookResp.missingMetadata ∧
        e.event = "charge.success" ∧
        (jsFalsyStr e.data.metadata.student_id = true ∨
          jsFalsyStr e.data.metadata.semester = true ∨
          jsFalsyStr e.data.metadata.academic_year = true))) := by
  refine ⟨rfl, rfl, ?_⟩
  by_cases hs : e.event = "charge.success"
  · by_cases hm : (jsFalsyStr e.data.metadata.student_id = true ∨
        jsFalsyStr e.data.metadata.semester = true ∨
        jsFalsyStr e.data.metadata.academic_year = true)
    · right
      refine ⟨?_, hs, hm⟩
      simp [webhookHandler2, webhookDispatch2, hs, hm]
    · left
      simp only [webhookHandler2, webhookDispatch2, hs, if_true, if_pos rfl]
      simp only [if_neg hm]
      split <;> rfl
  · left
    by_cases hf : e.event = "charge.failed"
    · simp [webhookHandler2, webhookDispatch2, hs, hf]
    · simp [webhookHandler2, webhookDispatch2, hs, hf]

/-- Claim C5 is right and the first variant's code is wrong: its
reconstruction branch defaults the description with a template that
references the undefined identifier `academicYear` (the in-scope name
is `academic_year`), so a signature-valid `charge.success` webhook for
an unknown reference whose metadata carries `studentId`, `amount`,
`currency` and the term context but no description throws a
`ReferenceError`: no transaction is created, the projection is not
updated, and the response is the catch branch's 500.  The second
variant's reconstruction (which spells the identifier correctly)
behaves as the claim states on the same input. -/
theorem C5_reconstruction_bug :
    (webhookDispatch
        { event := "charge.success"
          data :=
            { reference := "refX", amount := 250000, currency := "NGN",
              paid_at := some "2026-01-05T10:00:00Z",
              metadata :=
                { student_id := some "stu1", semester := some "Fall",
                  academic_year := some "2025/2026", description := none } } } 7
        { payments := [], students := [studentUnpaidC], nextId := 1 })
      = ({ payments := [], students := [studentUnpaidC], nextId := 1 },
         WebhookResp.dbError) ∧
    WebhookResp.statusCode WebhookResp.dbError = 500 ∧
    ((webhookDispatch2
        { event := "charge.success"
          data :=
            { reference := "refX", amount := 250000, currency := "NGN",
              paid_at := some "2026-01-05T10:00:00Z",
              metadata :=
                { student_id := some "stu1", semester := some "Fall",
                  academic_year := some "2025/2026", description := none } } } 7
        { payments := [], students := [studentUnpaidC], nextId := 1 }).1.payments.map
      (fun p => (p.paystackReference, p.status))) = [("refX", "success")] ∧
    ((webhookDispatch2
        { event := "charge.success"
          data :=
            { reference := "refX", amount := 250000, currency := "NGN",
              paid_at := some "2026-01-05T10:00:00Z",
              metadata :=
                { student_id := some "stu1", semester := some "Fall",
                  academic_year := some "2025/2026", description := none } } } 7
        { payments := [], students := [studentUnpaidC], nextId := 1 }).1.students.map
      (fun s => (s.currentSemesterPaymentStatus, s.paymentHistory)))
      = [("paid", [some 1])] := by
  decide

/-- Claim C6: on the client-confirmation path (first variant), a
provider-reported `success` rewrites the stored transaction for the
reference to `success` with the provider-reported `paid_at`, while any
other provider-reported status (e.g. `pending`) leaves the store
untouched and yields the 400 failure response carrying
`gateway_response || 'Unknown status'`. -/
theorem C6_client_confirmation (ref : String) (d : VerifyData) (now : Nat)
    (db : DB) :
    (d.status = "success" →
      findPayment ((verifyPayment ref (some d) now db).1.payments) ref
        = (findPayment db.payments ref).map
            (fun p =>
              { p with status := "success", paidAt := d.paid_at,
                       updatedAt := now })) ∧
    (d.status ≠ "success" →
      verifyPayment ref (some d) now db
        = (db, VerifyResp.failed (jsOrStr d.gateway_response "Unknown status"))) := by
  constructor
  · intro h
    simp only [verifyPayment, h, eq_self_iff_true, if_true]
    split
    · simpa using findPayment_after_update db.payments ref
        (fun p =>
          { p with status := "success", paidAt := d.paid_at, updatedAt := now })
        (fun p => rfl)
    · rename_i hup
      have hfst := findOneAndUpdatePayment_fst db.payments ref
        (fun p =>
          { p with status := "success", paidAt := d.paid_at, updatedAt := now })
      rw [hup] at hfst
      have h0 : findPayment db.payments ref = none :=
        Option.map_eq_none'.mp hfst.symm
      simp [h0]
  · intro h
    simp [verifyPayment, h]

theorem C6_client_confirmation_witness :
    (({ status := "success", paid_at := some "2026-01-05T10:00:00Z",
        gateway_response := none, metadata := mdC } : VerifyData).status
        = "success" ∧
      findPayment ((verifyPayment "ref1"
          (some { status := "success", paid_at := some "2026-01-05T10:00:00Z",
                  gateway_response := none, metadata := mdC }) 9
          dbPendingC).1.payments) "ref1"
        = (findPayment dbPendingC.payments "ref1").map
            (fun p =>
              { p with status := "success",
                       paidAt := some "2026-01-05T10:00:00Z",
                       updatedAt := 9 })) ∧
    (({ status := "pending", paid_at := none,
        gateway_response := some "The transaction is pending",
        metadata := mdC } : VerifyData).status ≠ "success" ∧
      verifyPayment "ref1"
          (some { status := "pending", paid_at := none,
                  gateway_response := some "The transaction is pending",
                  metadata := mdC }) 9 dbPendingC
        = (dbPendingC, VerifyResp.failed "The transaction is pending")) :=
  ⟨⟨by decide,
    (C6_client_confirmation "ref1"
        { status := "success", paid_at := some "2026-01-05T10:00:00Z",
          gateway_response := none, metadata := mdC } 9 dbPendingC).1
      (by decide)⟩,
   ⟨by decide,
    (C6_client_confirmation "ref1"
        { status := "pending", paid_at := none,
          gateway_response := some "The transaction is pending",
          metadata := mdC } 9 dbPendingC).2
      (by decide)⟩⟩

/-- Claim C7 is false on one point: when the gateway call fails, the
initiate handler's catch branch responds 500, not 502 (and a provider
response with a falsy status is also a 500), as this concrete
well-formed request against an unavailable gateway shows. -/
theorem C7_counterexample :
    (initiatePayment
        { amount := some 5000, studentId := some "stu1",
          semester := some "Fall", academicYear := some "2025/2026",
          description := none, email := some "stu1@example.com" }
        GatewayInit.unavailable 2
        { payments := [], students := [studentUnpaidC], nextId := 1 })
      = ({ payments := [], students := [studentUnpaidC], nextId := 1 },
         InitResp.serverError) ∧
    InitResp.statusCode InitResp.serverError = 500 ∧
    InitResp.statusCode InitResp.serverError ≠ 502 := by
  decide

/-- Claim C7, amended: initiate-payment responds 400 when a required
field is JavaScript-falsy or the amount is not positive, 404 when the
student does not exist, 500 (not 502) when the gateway is unavailable
or declines, and on gateway success it appends exactly one new
transaction — created in the `pending` state, carrying the provider
reference — and returns the provider reference, authorization URL,
access code and the internal transaction id. -/
theorem C7_amended_initiate (b : InitiateBody) (gw : GatewayInit)
    (now : Nat) (db : DB) :
    ((jsFalsyInt b.amount = true ∨ jsFalsyStr b.studentId = true ∨
        jsFalsyStr b.semester = true ∨ jsFalsyStr b.academicYear = true ∨
        jsFalsyStr b.email = true) →
      initiatePayment b gw now db
        = (db, InitResp.badRequest
            "Missing required payment details (amount, studentId, semester, academicYear, email).")) ∧
    (¬(jsFalsyInt b.amount = true ∨ jsFalsyStr b.studentId = true ∨
        jsFalsyStr b.semester = true ∨ jsFalsyStr b.academicYear = true ∨
        jsFalsyStr b.email = true) →
      (b.amount.getD 0 ≤ 0 →
        initiatePayment b gw now db
          = (db, InitResp.badRequest "Amount must be positive.")) ∧
      (0 < b.amount.getD 0 →
        (findStudent db.students (b.studentId.getD "") = none →
          initiatePayment b gw now db = (db, InitResp.notFound) ∧
          InitResp.statusCode InitResp.notFound = 404) ∧
        (∀ s, findStudent db.students (b.studentId.getD "") = some s →
          (gw = GatewayInit.unavailable →
            initiatePayment b gw now db = (db, InitResp.serverError) ∧
            InitResp.statusCode InitResp.serverError = 500) ∧
          (∀ url code ref, gw = GatewayInit.ok url code ref →
            ∃ newP : Payment,
              initiatePayment b gw now db
                = ({ db with payments := db.payments ++ [newP],
                             nextId := db.nextId + 1 },
                   InitResp.created url code ref newP._id) ∧
              newP.status = "pending" ∧
              newP.paystackReference = ref ∧
              newP.studentId = b.studentId ∧
              newP.amount = b.amount.getD 0 * 100)))) := by
  constructor
  · intro h
    simp [initiatePayment, h]
  · intro h
    constructor
    · intro ha
      simp [initiatePayment, h, ha]
    · intro ha
      have ha2 : ¬ b.amount.getD 0 ≤ 0 := by omega
      constructor
      · intro hs
        refine ⟨?_, rfl⟩
        simp [initiatePayment, h, ha2, hs]
      · intro s hs
        constructor
        · intro hg
          refine ⟨?_, rfl⟩
          simp [initiatePayment, h, ha2, hs, hg]
        · intro url code ref hg
          subst hg
          simp only [initiatePayment, h, ha2, hs]
          exact ⟨_, rfl, rfl, rfl, rfl, rfl⟩

theorem C7_amended_initiate_witness :
    (initiatePayment
        { amount := none, studentId := some "stu1", semester := some "Fall",
          academicYear := some "2025/2026", description := none,
          email := some "stu1@example.com" }
        GatewayInit.unavailable 2
        { payments := [], students := [studentUnpaidC], nextId := 1 }
      = ({ payments := [], students := [studentUnpaidC], nextId := 1 },
         InitResp.badRequest
           "Missing required payment details (amount, studentId, semester, academicYear, email).")) ∧
    (initiatePayment
        { amount := some (-5), studentId := some "stu1", semester := some "Fall",
          academicYear := some "2025/2026", description := none,
          email := some "stu1@example.com" }
        GatewayInit.unavailable 2
        { payments := [], students := [studentUnpaidC], nextId := 1 }
      = ({ payments := [], students := [studentUnpaidC], nextId := 1 },
         InitResp.badRequest "Amount must be positive.")) ∧
    (initiatePayment
        { amount := some 5000, studentId := some "stu1", semester := some "Fall",
          academicYear := some "2025/2026", description := none,
          email := some "stu1@example.com" }
        GatewayInit.unavailable 2
        { payments := [], students := [], nextId := 1 }
      = ({ payments := [], students := [], nextId := 1 }, InitResp.notFound) ∧
      InitResp.statusCode InitResp.notFound = 404) ∧
    (initiatePayment
        { amount := some 5000, studentId := some "stu1", semester := some "Fall",
          academicYear := some "2025/2026", description := none,
          email := some "stu1@example.com" }
        GatewayInit.unavailable 2
        { payments := [], students := [studentUnpaidC], nextId := 1 }
      = ({ payments := [], students := [studentUnpaidC], nextId := 1 },
         InitResp.serverError) ∧
      InitResp.statusCode InitResp.serverError = 500) ∧
    (∃ newP : Payment,
      initiatePayment
          { amount := some 5000, studentId := some "stu1",
            semester := some "Fall", academicYear := some "2025/2026",
            description := none, email := some "stu1@example.com" }
          (GatewayInit.ok "https://pay.example" "AC1" "ref9") 2
          { payments := [], students := [studentUnpaidC], nextId := 1 }
        = ({ payments := [newP], students := [studentUnpaidC], nextId := 2 },
           InitResp.created "https://pay.example" "AC1" "ref9" newP._id) ∧
      newP.status = "pending" ∧
      newP.paystackReference = "ref9" ∧
      newP.studentId = some "stu1" ∧
      newP.amount = 500000) :=
  ⟨(C7_amended_initiate
      { amount := none, studentId := some "stu1", semester := some "Fall",
        academicYear := some "2025/2026", description := none,
        email := some "stu1@example.com" }
      GatewayInit.unavailable 2
      { payments := [], students := [studentUnpaidC], nextId := 1 }).1
    (by decide),
   ((C7_amended_initiate
      { amount := some (-5), studentId := some "stu1", semester := some "Fall",
        academicYear := some "2025/2026", description := none,
        email := some "stu1@example.com" }
      GatewayInit.unavailable 2
      { payments := [], students := [studentUnpaidC], nextId := 1 }).2
    (by decide)).1 (by decide),
   (((C7_amended_initiate
      { amount := some 5000, studentId := some "stu1", semester := some "Fall",
        academicYear := some "2025/2026", description := none,
        email := some "stu1@example.com" }
      GatewayInit.unavailable 2
      { payments := [], students := [], nextId := 1 }).2
    (by decide)).2 (by decide)).1 (by decide),
   ((((C7_amended_initiate
      { amount := some 5000, studentId := some "stu1", semester := some "Fall",
        academicYear := some "2025/2026", description := none,
        email := some "stu1@example.com" }
      GatewayInit.unavailable 2
      { payments := [], students := [studentUnpaidC], nextId := 1 }).2
    (by decide)).2 (by decide)).2 studentUnpaidC (by decide)).1 rfl,
   ((((C7_amended_initiate
      { amount := some 5000, studentId := some "stu1", semester := some "Fall",
        academicYear := some "2025/2026", description := none,
        email := some "stu1@example.com" }
      (GatewayInit.ok "https://pay.example" "AC1" "ref9") 2
      { payments := [], students := [studentUnpaidC], nextId := 1 }).2
    (by decide)).2 (by decide)).2 studentUnpaidC (by decide)).2
    "https://pay.example" "AC1" "ref9" rfl⟩

/-- Claim C8: a signature-valid webhook whose event type is neither
`charge.success` nor `charge.failed` falls through both branches of the
first variant's dispatch, leaving the whole store unchanged and
answering 200 `{received: true}`. -/
theorem C8_unrecognized_event_noop (e : WebhookEvent) (now : Nat) (db : DB)
    (h1 : e.event ≠ "charge.success") (h2 : e.event ≠ "charge.failed") :
    webhookHandler true e now db = (db, WebhookResp.ok) ∧
    WebhookResp.statusCode WebhookResp.ok = 200 := by
  refine ⟨?_, rfl⟩
  simp [webhookHandler, webhookDispatch, h1, h2]

theorem C8_unrecognized_event_noop_witness :
    ({ event := "charge.dispute.create", data := evSuccessC.data } :
        WebhookEvent).event ≠ "charge.success" ∧
    ({ event := "charge.dispute.create", data := evSuccessC.data } :
        WebhookEvent).event ≠ "charge.failed" ∧
    (webhookHandler true
        { event := "charge.dispute.create", data := evSuccessC.data } 6
        dbPendingC
      = (dbPendingC, WebhookResp.ok) ∧
      WebhookResp.statusCode WebhookResp.ok = 200) :=
  ⟨by decide, by decide,
   C8_unrecognized_event_noop
     { event := "charge.dispute.create", data := evSuccessC.data } 6 dbPendingC
     (by decide) (by decide)⟩

/-- Claim C9: a signature-valid `charge.failed` webhook whose reference
matches no stored transaction performs a matchless `findOneAndUpdate`
(no upsert) in both route variants — creating nothing, changing
nothing — and still answers 200 `{received: true}`. -/
theorem C9_failed_no_record_noop (e : WebhookEvent) (now : Nat) (db : DB)
    (h1 : e.event = "charge.failed")
    (h2 : ∀ p ∈ db.payments, p.paystackReference ≠ e.data.reference) :
    webhookHandler true e now db = (db, WebhookResp.ok) ∧
    webhookHandler2 true e now db = (db, WebhookResp.ok) ∧
    WebhookResp.statusCode WebhookResp.ok = 200 := by
  have hupd := findOneAndUpdatePayment_nomatch db.payments e.data.reference
    (fun p => { p with status := "failed", updatedAt := now }) h2
  refine ⟨?_, ?_, rfl⟩
  · simp [webhookHandler, webhookDispatch, h1, hupd]
  · simp [webhookHandler2, webhookDispatch2, h1, hupd]

theorem C9_failed_no_record_noop_witness :
    ({ event := "charge.failed", data := { evFailedC.data with reference := "refZ" } } : WebhookEvent).event = "charge.failed" ∧
    (∀ p ∈ ({ payments := [paySuccessC], students := [studentUnpaidC], nextId := 2 } : DB).payments,
      p.paystackReference
        ≠ ({ event := "charge.failed", data := { evFailedC.data with reference := "refZ" } } : WebhookEvent).data.reference) ∧
    (webhookHandler true
        { event := "charge.failed", data := { evFailedC.data with reference := "refZ" } } 6
        { payments := [paySuccessC], students := [studentUnpaidC], nextId := 2 }
      = ({ payments := [paySuccessC], students := [studentUnpaidC], nextId := 2 }, WebhookResp.ok) ∧
      webhookHandler2 true
        { event := "charge.failed", data := { evFailedC.data with reference := "refZ" } } 6
        { payments := [paySuccessC], students := [studentUnpaidC], nextId := 2 }
      = ({ payments := [paySuccessC], students := [studentUnpaidC], nextId := 2 }, WebhookResp.ok) ∧
      WebhookResp.statusCode WebhookResp.ok = 200) :=
  ⟨by decide, by decide,
   C9_failed_no_record_noop
     { event := "charge.failed", data := { evFailedC.data with reference := "refZ" } } 6
     { payments := [paySuccessC], students := [studentUnpaidC], nextId := 2 }
     (by decide) (by decide)⟩

/-- Claim C10: in the second variant's verify handler, a provider
`success` for a reference with no stored transaction still marks the
student projection paid — `currentSemesterPaymentStatus` `paid` and
`lastPaidSemester` / `lastPaidAcademicYear` from provider metadata —
and `$addToSet`s a JavaScript `null` (here `none`) into
`paymentHistory` instead of a transaction id, responding 200 with a
`null` payment. -/
theorem C10_verify2_null_history (ref : String) (d : VerifyData) (now : Nat)
    (db : DB) (sid : String)
    (hs : d.status = "success")
    (hid : d.metadata.student_id = some sid)
    (hnone : ∀ p ∈ db.payments, p.paystackReference ≠ ref) :
    (verifyPayment2 ref (some d) now db).2 = VerifyResp.verified none ∧
    findStudent ((verifyPayment2 ref (some d) now db).1.students) sid
      = (findStudent db.students sid).map
          (fun s =>
            { s with currentSemesterPaymentStatus := "paid",
                     lastPaidSemester := d.metadata.semester,
                     lastPaidAcademicYear := d.metadata.academic_year,
                     paymentHistory := addToSet s.paymentHistory none }) := by
  have hupd := findOneAndUpdatePayment_nomatch db.payments ref
    (fun p =>
      { p with status := "success", paidAt := d.paid_at, updatedAt := now })
    hnone
  constructor
  · simp [verifyPayment2, hs, hupd]
  · simp only [verifyPayment2, hs, eq_self_iff_true, if_true, hupd]
    simp only [markStudentPaid, hid]
    exact findStudent_after_update db.students sid _ fun s => rfl

theorem C10_verify2_null_history_witness :
    (({ status := "success", paid_at := some "2026-01-05T10:00:00Z", gateway_response := none, metadata := mdC } : VerifyData).status = "success" ∧
      ({ status := "success", paid_at := some "2026-01-05T10:00:00Z", gateway_response := none, metadata := mdC } : VerifyData).metadata.student_id = some "stu1" ∧
      (∀ p ∈ ({ payments := [], students := [studentUnpaidC], nextId := 1 } : DB).payments, p.paystackReference ≠ "refZ")) ∧
    ((verifyPayment2 "refZ"
        (some { status := "success", paid_at := some "2026-01-05T10:00:00Z", gateway_response := none, metadata := mdC }) 8
        { payments := [], students := [studentUnpaidC], nextId := 1 }).2
      = VerifyResp.verified none ∧
      findStudent ((verifyPayment2 "refZ"
          (some { status := "success", paid_at := some "2026-01-05T10:00:00Z", gateway_response := none, metadata := mdC }) 8
          { payments := [], students := [studentUnpaidC], nextId := 1 }).1.students) "stu1"
        = (findStudent [studentUnpaidC] "stu1").map
            (fun s =>
              { s with currentSemesterPaymentStatus := "paid",
                       lastPaidSemester := some "Fall",
                       lastPaidAcademicYear := some "2025/2026",
                       paymentHistory := addToSet s.paymentHistory none })) :=
  ⟨⟨by decide, by decide, by decide⟩,
   C10_verify2_null_history "refZ"
     { status := "success", paid_at := some "2026-01-05T10:00:00Z", gateway_response := none, metadata := mdC } 8
     { payments := [], students := [studentUnpaidC], nextId := 1 } "stu1"
     (by decide) (by decide) (by decide)⟩
